import Mathlib

/-!
Shallow embedding of `src/app.py` (Mergington High School activities API).

Python dictionaries (`users`, `active_sessions`, `activities`) are modelled as
association lists that preserve insertion order, with `dict_get` / `dict_set` /
`dict_pop` mirroring `d.get(k)` / `d[k] = v` / `d.pop(k, None)`.  Python string
methods `.lower()`, `.startswith()`, `.removeprefix()`, `.strip()` are modelled
on the character list underlying a `String`.  `hash_password` (SHA-256 hex
digest in the source) is an abstract parameter `hash : String → String`: no
property below depends on the digest beyond it being a function.  Fallible
handlers return `Except HTTPException result × AppState`, threading the state
exactly along the source's control flow: every `raise HTTPException` becomes a
`.error` paired with the state as it stands at that point in the handler.
-/

/-- Python `s.lower()` on the characters of `s`. -/
def strLower (s : String) : String := ⟨s.data.map Char.toLower⟩

/-- Python `s.startswith(p)`. -/
def strStartsWith (s p : String) : Bool := p.data.isPrefixOf s.data

/-- Drop the first `n` characters of `s`. -/
def strDrop (s : String) (n : Nat) : String := ⟨s.data.drop n⟩

/-- Python `s.strip()`: remove leading and trailing whitespace. -/
def strTrim (s : String) : String :=
  ⟨((s.data.dropWhile Char.isWhitespace).reverse.dropWhile Char.isWhitespace).reverse⟩

/-- Python `s.removeprefix("Bearer ")`: drop the prefix when present, else unchanged. -/
def remove_bearer (s : String) : String :=
  if strStartsWith s "Bearer " then strDrop s ("Bearer ".data.length) else s

/-- Python `d.get(k)` on an insertion-ordered dictionary. -/
def dict_get {α : Type} : List (String × α) → String → Option α
  | [], _ => none
  | (k2, v) :: rest, k => if k2 = k then some v else dict_get rest k

/-- Replace the value stored at key `k` in place, keeping dictionary order. -/
def dict_update {α : Type} : List (String × α) → String → α → List (String × α)
  | [], _, _ => []
  | (k2, w) :: rest, k, v =>
    if k2 = k then (k, v) :: dict_update rest k v else (k2, w) :: dict_update rest k v

/-- Python `d[k] = v`: overwrite in place when the key exists, else append. -/
def dict_set {α : Type} (d : List (String × α)) (k : String) (v : α) : List (String × α) :=
  if (dict_get d k).isSome then dict_update d k v else d ++ [(k, v)]

/-- Python `d.pop(k, None)`: remove the key when present, else no-op. -/
def dict_pop {α : Type} (d : List (String × α)) (k : String) : List (String × α) :=
  d.filter (fun p => decide (p.1 ≠ k))

/-- Python `l.remove(x)`: remove the first occurrence of `x` (callers check membership first). -/
def list_remove (x : String) : List String → List String
  | [] => []
  | y :: ys => if y = x then ys else y :: list_remove x ys

instance {ε α : Type} [DecidableEq ε] [DecidableEq α] : DecidableEq (Except ε α) := fun x y =>
  match x, y with
  | .error a, .error b => if h : a = b then .isTrue (by rw [h]) else .isFalse (by simp [h])
  | .error _, .ok _ => .isFalse (by simp)
  | .ok _, .error _ => .isFalse (by simp)
  | .ok a, .ok b => if h : a = b then .isTrue (by rw [h]) else .isFalse (by simp [h])

/-- `raise HTTPException(status_code=..., detail=...)`. -/
structure HTTPException where
  status_code : Nat
  detail : String
deriving DecidableEq

/-- A value of the `users` dictionary: `{"password_hash": ..., "role": ...}`. -/
structure UserRec where
  password_hash : String
  role : String
deriving DecidableEq

/-- A value of the `activities` dictionary. -/
structure Activity where
  description : String
  schedule : String
  max_participants : Nat
  participants : List String
deriving DecidableEq

/-- The dictionary returned by `get_current_user`: `{"email": ..., "role": ...}`. -/
structure CurrentUser where
  email : String
  role : String
deriving DecidableEq

/-- The three module-level mutable dictionaries of `app.py`. -/
structure AppState where
  users : List (String × UserRec)
  active_sessions : List (String × String)
  activities : List (String × Activity)
deriving DecidableEq

/-- `ROLES = {"member", "admin", "supervisor"}`. -/
def ROLES : List String := ["member", "admin", "supervisor"]

/-- Response of `register_user` on success. -/
structure RegisterResponse where
  message : String
  email : String
  role : String
deriving DecidableEq

/-- Response of `login_user` on success. -/
structure LoginResponse where
  message : String
  token : String
  user_email : String
  user_role : String
deriving DecidableEq

/-- `POST /auth/register` handler body (lines 150-168 of `app.py`). -/
def register_user (hash : String → String) (payload_email payload_password payload_role : String)
    (s : AppState) : Except HTTPException RegisterResponse × AppState :=
  let email := strLower payload_email
  let role := strLower payload_role
  if role ∉ ROLES then
    (.error ⟨400, "Invalid role"⟩, s)
  else if role ≠ "member" then
    (.error ⟨403, "Self-registration only supports member role"⟩, s)
  else if (dict_get s.users email).isSome then
    (.error ⟨400, "User already exists"⟩, s)
  else
    (.ok ⟨"Registration successful", email, role⟩,
     { s with users := dict_set s.users email ⟨hash payload_password, role⟩ })

/-- `POST /auth/login` handler body (lines 171-188); `fresh_token` models
`secrets.token_urlsafe(32)`. -/
def login_user (hash : String → String) (payload_email payload_password fresh_token : String)
    (s : AppState) : Except HTTPException LoginResponse × AppState :=
  let email := strLower payload_email
  match dict_get s.users email with
  | none => (.error ⟨401, "Invalid email or password"⟩, s)
  | some user_record =>
    if user_record.password_hash ≠ hash payload_password then
      (.error ⟨401, "Invalid email or password"⟩, s)
    else
      (.ok ⟨"Login successful", fresh_token, email, user_record.role⟩,
       { s with active_sessions := dict_set s.active_sessions fresh_token email })

/-- Lines 120-128 of `get_current_user`: token lookup and user resolution. -/
def resolve_token (token : String) (s : AppState) : Except HTTPException CurrentUser :=
  match dict_get s.active_sessions token with
  | none => .error ⟨401, "Invalid or expired session token"⟩
  | some email =>
    if email = "" then .error ⟨401, "Invalid or expired session token"⟩
    else
      match dict_get s.users email with
      | none => .error ⟨401, "User not found"⟩
      | some user_record => .ok ⟨email, user_record.role⟩

/-- `get_current_user` dependency (lines 115-128); `none` models an absent header. -/
def get_current_user (authorization : Option String) (s : AppState) :
    Except HTTPException CurrentUser :=
  match authorization with
  | none => .error ⟨401, "Missing or invalid authorization header"⟩
  | some a =>
    if a = "" ∨ ¬ strStartsWith a "Bearer " then
      .error ⟨401, "Missing or invalid authorization header"⟩
    else
      resolve_token (strTrim (remove_bearer a)) s

/-- `require_roles(*allowed_roles)` dependency applied to the result of
`get_current_user`. -/
def require_roles (allowed_roles : List String)
    (dep : Except HTTPException CurrentUser) : Except HTTPException CurrentUser :=
  match dep with
  | .error e => .error e
  | .ok current_user =>
    if current_user.role ∉ allowed_roles then
      .error ⟨403, "You do not have permission for this action"⟩
    else
      .ok current_user

/-- `POST /auth/logout` route: `get_current_user` dependency, then the handler body. -/
def logout_route (authorization : Option String) (s : AppState) :
    Except HTTPException String × AppState :=
  match get_current_user authorization s with
  | .error e => (.error e, s)
  | .ok current_user =>
    match authorization with
    | none => (.error ⟨401, "Missing or invalid authorization header"⟩, s)
    | some a =>
      let token := strTrim (remove_bearer a)
      (.ok ("Logged out " ++ current_user.email),
       { s with active_sessions := dict_pop s.active_sessions token })

/-- `POST /activities/.../signup` handler body (lines 203-234), with the
already-resolved `current_user` dependency as an argument. -/
def signup_for_activity (activity_name email : String) (current_user : CurrentUser)
    (s : AppState) : Except HTTPException String × AppState :=
  match dict_get s.activities activity_name with
  | none => (.error ⟨404, "Activity not found"⟩, s)
  | some activity =>
    let target_email := strLower email
    if current_user.role = "member" ∧ target_email ≠ current_user.email then
      (.error ⟨403, "Members can only sign themselves up"⟩, s)
    else if target_email ∈ activity.participants then
      (.error ⟨400, "Student is already signed up"⟩, s)
    else if activity.max_participants ≤ activity.participants.length then
      (.error ⟨400, "Activity is full"⟩, s)
    else
      let new_activities := dict_set s.activities activity_name
        ({ activity with participants := activity.participants ++ [target_email] })
      (.ok ("Signed up " ++ target_email ++ " for " ++ activity_name),
       { s with activities := new_activities })

/-- `DELETE /activities/.../unregister` handler body (lines 237-265). -/
def unregister_from_activity (activity_name email : String) (current_user : CurrentUser)
    (s : AppState) : Except HTTPException String × AppState :=
  match dict_get s.activities activity_name with
  | none => (.error ⟨404, "Activity not found"⟩, s)
  | some activity =>
    let target_email := strLower email
    if current_user.role = "member" ∧ target_email ≠ current_user.email then
      (.error ⟨403, "Members can only unregister themselves"⟩, s)
    else if target_email ∉ activity.participants then
      (.error ⟨400, "Student is not signed up for this activity"⟩, s)
    else
      let new_activities := dict_set s.activities activity_name
        ({ activity with participants := list_remove target_email activity.participants })
      (.ok ("Unregistered " ++ target_email ++ " from " ++ activity_name),
       { s with activities := new_activities })

/-- Full signup route: auth and role dependencies, then the handler body. -/
def signup_route (activity_name email : String) (authorization : Option String)
    (s : AppState) : Except HTTPException String × AppState :=
  match require_roles ["member", "admin", "supervisor"] (get_current_user authorization s) with
  | .error e => (.error e, s)
  | .ok current_user => signup_for_activity activity_name email current_user s

/-- Full unregister route: auth and role dependencies, then the handler body. -/
def unregister_route (activity_name email : String) (authorization : Option String)
    (s : AppState) : Except HTTPException String × AppState :=
  match require_roles ["member", "admin", "supervisor"] (get_current_user authorization s) with
  | .error e => (.error e, s)
  | .ok current_user => unregister_from_activity activity_name email current_user s

/-- Run a sequence of signup requests `(activity_name, email, current_user)`,
each taking the state left by the previous one (failures leave it unchanged). -/
def run_signups : List (String × String × CurrentUser) → AppState → AppState
  | [], s => s
  | (n, e, cu) :: rest, s => run_signups rest (signup_for_activity n e cu s).2

/-- `true` exactly on `.error`. -/
def isErr {ε α : Type} : Except ε α → Bool
  | .error _ => true
  | .ok _ => false

/-- The seeded `activities` dictionary of `app.py`. -/
def seed_activities : List (String × Activity) :=
  [("Chess Club",
    ⟨"Learn strategies and compete in chess tournaments",
     "Fridays, 3:30 PM - 5:00 PM", 12,
     ["michael@mergington.edu", "daniel@mergington.edu"]⟩),
   ("Programming Class",
    ⟨"Learn programming fundamentals and build software projects",
     "Tuesdays and Thursdays, 3:30 PM - 4:30 PM", 20,
     ["emma@mergington.edu", "sophia@mergington.edu"]⟩),
   ("Gym Class",
    ⟨"Physical education and sports activities",
     "Mondays, Wednesdays, Fridays, 2:00 PM - 3:00 PM", 30,
     ["john@mergington.edu", "olivia@mergington.edu"]⟩),
   ("Soccer Team",
    ⟨"Join the school soccer team and compete in matches",
     "Tuesdays and Thursdays, 4:00 PM - 5:30 PM", 22,
     ["liam@mergington.edu", "noah@mergington.edu"]⟩),
   ("Basketball Team",
    ⟨"Practice and play basketball with the school team",
     "Wednesdays and Fridays, 3:30 PM - 5:00 PM", 15,
     ["ava@mergington.edu", "mia@mergington.edu"]⟩),
   ("Art Club",
    ⟨"Explore your creativity through painting and drawing",
     "Thursdays, 3:30 PM - 5:00 PM", 15,
     ["amelia@mergington.edu", "harper@mergington.edu"]⟩),
   ("Drama Club",
    ⟨"Act, direct, and produce plays and performances",
     "Mondays and Wednesdays, 4:00 PM - 5:30 PM", 20,
     ["ella@mergington.edu", "scarlett@mergington.edu"]⟩),
   ("Math Club",
    ⟨"Solve challenging problems and participate in math competitions",
     "Tuesdays, 3:30 PM - 4:30 PM", 10,
     ["james@mergington.edu", "benjamin@mergington.edu"]⟩),
   ("Debate Team",
    ⟨"Develop public speaking and argumentation skills",
     "Fridays, 4:00 PM - 5:30 PM", 12,
     ["charlotte@mergington.edu", "henry@mergington.edu"]⟩)]

/-- The seeded `users` dictionary, parameterized by the password hash. -/
def seed_users (hash : String → String) : List (String × UserRec) :=
  [("member@mergington.edu", ⟨hash "member123", "member"⟩),
   ("admin@mergington.edu", ⟨hash "admin123", "admin"⟩),
   ("supervisor@mergington.edu", ⟨hash "supervisor123", "supervisor"⟩)]

/-- The module-level state of `app.py` at startup: seeded users and activities,
no active sessions. -/
def initial_state (hash : String → String) : AppState :=
  ⟨seed_users hash, [], seed_activities⟩

/-- Capacity invariant of the activities dictionary: every activity's
participant list is within its capacity. -/
def CapacityInv (s : AppState) : Prop :=
  ∀ p ∈ s.activities, p.2.participants.length ≤ p.2.max_participants

instance (s : AppState) : Decidable (CapacityInv s) := by
  unfold CapacityInv; infer_instance

/-- A concrete stand-in digest function used to instantiate the abstract
`hash` parameter in closed statements. -/
def sample_hash (p : String) : String := p ++ "#digest"

/-- The HTTP status code of a handler result, when it is an error. -/
def errStatus {α : Type} : Except HTTPException α → Option Nat
  | .error e => some e.status_code
  | .ok _ => none

theorem dict_get_append_last {α : Type} {l : List (String × α)} {k : String} {v : α}
    (h : dict_get l k = none) : dict_get (l ++ [(k, v)]) k = some v := by
  induction l with
  | nil => simp [dict_get]
  | cons p rest ih =>
    cases p with
    | mk k2 w =>
      by_cases hk : k2 = k
      · simp [dict_get, hk] at h
      · simp only [List.cons_append, dict_get, if_neg hk] at h ⊢
        exact ih h

theorem dict_get_mem {α : Type} {d : List (String × α)} {k : String} {a : α}
    (h : dict_get d k = some a) : (k, a) ∈ d := by
  induction d with
  | nil => simp [dict_get] at h
  | cons p rest ih =>
    cases p with
    | mk k2 w =>
      by_cases hk : k2 = k
      · simp only [dict_get, if_pos hk] at h
        subst hk
        obtain rfl : w = a := by injection h
        exact List.mem_cons_self _ _
      · simp only [dict_get, if_neg hk] at h
        exact List.mem_cons_of_mem _ (ih h)

theorem dict_get_update_self {α : Type} {d : List (String × α)} {k : String} {v : α}
    (h : (dict_get d k).isSome) : dict_get (dict_update d k v) k = some v := by
  induction d with
  | nil => simp [dict_get] at h
  | cons p rest ih =>
    cases p with
    | mk k2 w =>
      by_cases hk : k2 = k
      · simp [dict_update, dict_get, hk]
      · simp only [dict_get, if_neg hk] at h
        simp only [dict_update, if_neg hk, dict_get]
        exact ih h

theorem dict_get_set_self {α : Type} {d : List (String × α)} {k : String} (v : α)
    (h : (dict_get d k).isSome) : dict_get (dict_set d k v) k = some v := by
  unfold dict_set
  rw [if_pos h]
  exact dict_get_update_self h

theorem mem_dict_update {α : Type} {d : List (String × α)} {k : String} {v : α} {p : String × α}
    (hp : p ∈ dict_update d k v) : p = (k, v) ∨ p ∈ d := by
  induction d with
  | nil => simp [dict_update] at hp
  | cons q rest ih =>
    cases q with
    | mk k2 w =>
      by_cases hk : k2 = k
      · simp only [dict_update, if_pos hk, List.mem_cons] at hp
        rcases hp with hp | hp
        · exact Or.inl hp
        · rcases ih hp with hp | hp
          · exact Or.inl hp
          · exact Or.inr (List.mem_cons_of_mem _ hp)
      · simp only [dict_update, if_neg hk, List.mem_cons] at hp
        rcases hp with hp | hp
        · exact Or.inr (by rw [hp]; exact List.mem_cons_self _ _)
        · rcases ih hp with hp | hp
          · exact Or.inl hp
          · exact Or.inr (List.mem_cons_of_mem _ hp)

theorem mem_dict_set {α : Type} {d : List (String × α)} {k : String} {v : α} {p : String × α}
    (hp : p ∈ dict_set d k v) : p = (k, v) ∨ p ∈ d := by
  unfold dict_set at hp
  by_cases hs : (dict_get d k).isSome
  · rw [if_pos hs] at hp
    exact mem_dict_update hp
  · rw [if_neg hs] at hp
    rcases List.mem_append.mp hp with hp | hp
    · exact Or.inr hp
    · exact Or.inl (by simpa using hp)

theorem list_remove_append_self {x : String} {l : List String} (h : x ∉ l) :
    list_remove x (l ++ [x]) = l := by
  induction l with
  | nil => simp [list_remove]
  | cons y ys ih =>
    simp only [List.mem_cons, not_or] at h
    rw [List.cons_append]
    unfold list_remove
    rw [if_neg (fun hxy => h.1 hxy.symm)]
    rw [ih h.2]

/-- C3, counterexample: a register request with the valid non-member role
"admin" fails with HTTP status 403, not 400 as the claim states. -/
theorem register_admin_role_status_counterexample :
    errStatus (register_user sample_hash "charlie@example.com" "pw" "admin"
      (initial_state sample_hash)).1 = some 403 ∧
    errStatus (register_user sample_hash "charlie@example.com" "pw" "admin"
      (initial_state sample_hash)).1 ≠ some 400 := by
  exact ⟨by decide, by decide⟩

/-- C3 (amended): for every register request whose lowercased role is a valid
role other than "member", registration fails with HTTP status 403
("Self-registration only supports member role") and the state, in particular
the users store, is unchanged. -/
theorem register_nonmember_valid_role_forbidden
    (hash : String → String) (e p r : String) (s : AppState)
    (hval : strLower r ∈ ROLES) (hnm : strLower r ≠ "member") :
    register_user hash e p r s =
      (.error ⟨403, "Self-registration only supports member role"⟩, s) := by
  simp only [register_user]
  rw [if_neg (not_not_intro hval), if_pos hnm]

/-- Witness for C3's amended theorem at a concrete input. -/
theorem register_nonmember_valid_role_forbidden_witness :
    register_user sample_hash "newadmin@example.com" "pw" "Supervisor"
      (initial_state sample_hash) =
      (.error ⟨403, "Self-registration only supports member role"⟩,
       initial_state sample_hash) :=
  register_nonmember_valid_role_forbidden sample_hash "newadmin@example.com" "pw" "Supervisor"
    (initial_state sample_hash) (by decide) (by decide)

/-- C2, counterexample: after a successful register of "alice@example.com",
a second register with the same email but role "admin" fails 403 Forbidden,
not 400 AlreadyExists: the role checks run before the duplicate-email check. -/
theorem register_duplicate_admin_role_counterexample :
    (register_user sample_hash "alice@example.com" "pw1" "member"
      (initial_state sample_hash)).1 =
      .ok ⟨"Registration successful", "alice@example.com", "member"⟩ ∧
    (register_user sample_hash "alice@example.com" "pw2" "admin"
        ((register_user sample_hash "alice@example.com" "pw1" "member"
          (initial_state sample_hash)).2)).1 =
      .error ⟨403, "Self-registration only supports member role"⟩ ∧
    (register_user sample_hash "alice@example.com" "pw2" "admin"
        ((register_user sample_hash "alice@example.com" "pw1" "member"
          (initial_state sample_hash)).2)).1 ≠
      .error ⟨400, "User already exists"⟩ := by
  exact ⟨by decide, by decide, by decide⟩

/-- C2 (amended): after a successful register, any second register call with
the same lowercased email whose role lowercases to "member" fails 400
"User already exists", regardless of the password supplied. -/
theorem register_duplicate_member_role_already_exists
    (hash : String → String) (e1 p1 r1 e2 p2 r2 : String) (s s1 : AppState)
    (resp : RegisterResponse)
    (hreg : register_user hash e1 p1 r1 s = (.ok resp, s1))
    (hsame : strLower e2 = strLower e1)
    (hrole : strLower r2 = "member") :
    (register_user hash e2 p2 r2 s1).1 = .error ⟨400, "User already exists"⟩ := by
  simp only [register_user] at hreg
  split at hreg
  · exact absurd hreg (by simp)
  · split at hreg
    · exact absurd hreg (by simp)
    · split at hreg
      · exact absurd hreg (by simp)
      · next hfresh =>
        have hs1 : dict_set s.users (strLower e1) ⟨hash p1, strLower r1⟩ = s1.users := by
          have := congrArg Prod.snd hreg
          simp only at this
          rw [← this]
        have hnone : dict_get s.users (strLower e1) = none :=
          Option.not_isSome_iff_eq_none.mp hfresh
        have hget : dict_get s1.users (strLower e1) = some ⟨hash p1, strLower r1⟩ := by
          rw [← hs1]
          unfold dict_set
          rw [if_neg hfresh]
          exact dict_get_append_last hnone
        simp only [register_user, hrole, hsame]
        rw [if_neg (by decide : ¬ ("member" ∉ ROLES))]
        rw [if_neg (by decide : ¬ ("member" ≠ "member"))]
        rw [if_pos (by rw [hget]; rfl)]

/-- Witness for C2's amended theorem at a concrete input. -/
theorem register_duplicate_member_role_already_exists_witness :
    (register_user sample_hash "ALICE@example.com" "pw9" "MEMBER"
      ((register_user sample_hash "Alice@Example.com" "pw1" "member"
        (initial_state sample_hash)).2)).1 = .error ⟨400, "User already exists"⟩ :=
  register_duplicate_member_role_already_exists sample_hash "Alice@Example.com" "pw1" "member"
    "ALICE@example.com" "pw9" "MEMBER" (initial_state sample_hash)
    ((register_user sample_hash "Alice@Example.com" "pw1" "member"
      (initial_state sample_hash)).2)
    ⟨"Registration successful", "alice@example.com", "member"⟩
    (by decide) (by decide) (by decide)


theorem signup_eq (n e : String) (cu : CurrentUser) (s : AppState) :
    signup_for_activity n e cu s =
      match dict_get s.activities n with
      | none => (.error ⟨404, "Activity not found"⟩, s)
      | some activity =>
        if cu.role = "member" ∧ strLower e ≠ cu.email then
          (.error ⟨403, "Members can only sign themselves up"⟩, s)
        else if strLower e ∈ activity.participants then
          (.error ⟨400, "Student is already signed up"⟩, s)
        else if activity.max_participants ≤ activity.participants.length then
          (.error ⟨400, "Activity is full"⟩, s)
        else
          (.ok ("Signed up " ++ strLower e ++ " for " ++ n),
           ⟨s.users, s.active_sessions,
            dict_set s.activities n
              ⟨activity.description, activity.schedule, activity.max_participants,
               activity.participants ++ [strLower e]⟩⟩) :=
  rfl

theorem unregister_eq (n e : String) (cu : CurrentUser) (s : AppState) :
    unregister_from_activity n e cu s =
      match dict_get s.activities n with
      | none => (.error ⟨404, "Activity not found"⟩, s)
      | some activity =>
        if cu.role = "member" ∧ strLower e ≠ cu.email then
          (.error ⟨403, "Members can only unregister themselves"⟩, s)
        else if strLower e ∉ activity.participants then
          (.error ⟨400, "Student is not signed up for this activity"⟩, s)
        else
          (.ok ("Unregistered " ++ strLower e ++ " from " ++ n),
           ⟨s.users, s.active_sessions,
            dict_set s.activities n
              ⟨activity.description, activity.schedule, activity.max_participants,
               list_remove (strLower e) activity.participants⟩⟩) :=
  rfl

theorem signup_preserves_capacity_step
    (n e : String) (cu : CurrentUser) (s : AppState) (hInv : CapacityInv s) :
    CapacityInv (signup_for_activity n e cu s).2 := by
  rw [signup_eq]
  split
  · exact hInv
  · split
    · exact hInv
    · split
      · exact hInv
      · split
        · exact hInv
        · rename_i activity heq h1 h2 h3
          intro p hp
          rcases mem_dict_set hp with hpe | hpm
          · rw [hpe]
            have hlt : activity.participants.length < activity.max_participants :=
              lt_of_not_le h3
            simpa [List.length_append] using hlt
          · exact hInv p hpm

/-- C5: signup performs its failure checks in the fixed order NotFound (404),
PermissionDenied (403, actor is a member and the lowercased target email
differs from the actor's email), AlreadyRegistered (400), Full (400); the
earliest condition holding in that order determines the returned error, and
every error leaves the state unchanged. -/
theorem signup_error_order (n e : String) (cu : CurrentUser) (s : AppState) :
    (dict_get s.activities n = none →
      signup_for_activity n e cu s = (.error ⟨404, "Activity not found"⟩, s)) ∧
    (∀ a, dict_get s.activities n = some a →
      cu.role = "member" → strLower e ≠ cu.email →
      signup_for_activity n e cu s =
        (.error ⟨403, "Members can only sign themselves up"⟩, s)) ∧
    (∀ a, dict_get s.activities n = some a →
      ¬ (cu.role = "member" ∧ strLower e ≠ cu.email) →
      strLower e ∈ a.participants →
      signup_for_activity n e cu s =
        (.error ⟨400, "Student is already signed up"⟩, s)) ∧
    (∀ a, dict_get s.activities n = some a →
      ¬ (cu.role = "member" ∧ strLower e ≠ cu.email) →
      strLower e ∉ a.participants →
      a.max_participants ≤ a.participants.length →
      signup_for_activity n e cu s = (.error ⟨400, "Activity is full"⟩, s)) := by
  refine ⟨?_, ?_, ?_, ?_⟩
  · intro h
    rw [signup_eq]
    simp only [h]
  · intro a ha hm hne
    rw [signup_eq]
    simp only [ha]
    rw [if_pos ⟨hm, hne⟩]
  · intro a ha hperm hmem
    rw [signup_eq]
    simp only [ha]
    rw [if_neg hperm, if_pos hmem]
  · intro a ha hperm hmem hfull
    rw [signup_eq]
    simp only [ha]
    rw [if_neg hperm, if_neg hmem, if_pos hfull]

/-- Witness for C5 at concrete inputs exercising all four error branches. -/
theorem signup_error_order_witness :
    signup_for_activity "Knitting Club" "member@mergington.edu"
        ⟨"member@mergington.edu", "member"⟩ (initial_state sample_hash) =
      (.error ⟨404, "Activity not found"⟩, initial_state sample_hash) ∧
    signup_for_activity "Chess Club" "other@mergington.edu"
        ⟨"member@mergington.edu", "member"⟩ (initial_state sample_hash) =
      (.error ⟨403, "Members can only sign themselves up"⟩, initial_state sample_hash) ∧
    signup_for_activity "Chess Club" "michael@mergington.edu"
        ⟨"admin@mergington.edu", "admin"⟩ (initial_state sample_hash) =
      (.error ⟨400, "Student is already signed up"⟩, initial_state sample_hash) ∧
    signup_for_activity "Tiny" "new@example.com" ⟨"admin@mergington.edu", "admin"⟩
        (⟨[], [], [("Tiny", ⟨"d", "sch", 1, ["a@example.com"]⟩)]⟩ : AppState) =
      (.error ⟨400, "Activity is full"⟩,
       (⟨[], [], [("Tiny", ⟨"d", "sch", 1, ["a@example.com"]⟩)]⟩ : AppState)) :=
  ⟨(signup_error_order "Knitting Club" "member@mergington.edu"
      ⟨"member@mergington.edu", "member"⟩ (initial_state sample_hash)).1 (by decide),
   (signup_error_order "Chess Club" "other@mergington.edu"
      ⟨"member@mergington.edu", "member"⟩ (initial_state sample_hash)).2.1
     ⟨"Learn strategies and compete in chess tournaments", "Fridays, 3:30 PM - 5:00 PM", 12,
      ["michael@mergington.edu", "daniel@mergington.edu"]⟩
     (by decide) (by decide) (by decide),
   (signup_error_order "Chess Club" "michael@mergington.edu"
      ⟨"admin@mergington.edu", "admin"⟩ (initial_state sample_hash)).2.2.1
     ⟨"Learn strategies and compete in chess tournaments", "Fridays, 3:30 PM - 5:00 PM", 12,
      ["michael@mergington.edu", "daniel@mergington.edu"]⟩
     (by decide) (by decide) (by decide),
   (signup_error_order "Tiny" "new@example.com" ⟨"admin@mergington.edu", "admin"⟩
      (⟨[], [], [("Tiny", ⟨"d", "sch", 1, ["a@example.com"]⟩)]⟩ : AppState)).2.2.2
     ⟨"d", "sch", 1, ["a@example.com"]⟩ (by decide) (by decide) (by decide) (by decide)⟩

/-- C1: the capacity invariant `len(participants) ≤ max_participants` for every
activity is preserved by every sequence of signup operations, and a signup that
reaches the capacity check with the activity already at (or beyond) capacity
fails 400 "Activity is full" leaving the state unchanged. -/
theorem signup_capacity_invariant :
    (∀ reqs : List (String × String × CurrentUser), ∀ s : AppState,
      CapacityInv s → CapacityInv (run_signups reqs s)) ∧
    (∀ n e cu s a, dict_get s.activities n = some a →
      ¬ (cu.role = "member" ∧ strLower e ≠ cu.email) →
      strLower e ∉ a.participants →
      a.max_participants ≤ a.participants.length →
      signup_for_activity n e cu s = (.error ⟨400, "Activity is full"⟩, s)) := by
  constructor
  · intro reqs
    induction reqs with
    | nil => intro s h; exact h
    | cons r rest ih =>
      intro s h
      obtain ⟨n, e, cu⟩ := r
      exact ih _ (signup_preserves_capacity_step n e cu s h)
  · intro n e cu s a ha hperm hmem hfull
    rw [signup_eq]
    simp only [ha]
    rw [if_neg hperm, if_neg hmem, if_pos hfull]

/-- Witness for C1: a concrete signup sequence preserves the invariant, and a
concrete at-capacity signup fails Full with the state unchanged. -/
theorem signup_capacity_invariant_witness :
    CapacityInv (run_signups
      [("Chess Club", "member@mergington.edu", ⟨"member@mergington.edu", "member"⟩),
       ("Math Club", "x@example.com", ⟨"admin@mergington.edu", "admin"⟩),
       ("Math Club", "x@example.com", ⟨"admin@mergington.edu", "admin"⟩)]
      (initial_state sample_hash)) ∧
    signup_for_activity "Tiny" "other@example.com" ⟨"supervisor@mergington.edu", "supervisor"⟩
        (⟨[], [], [("Tiny", ⟨"d", "sch", 1, ["a@example.com"]⟩)]⟩ : AppState) =
      (.error ⟨400, "Activity is full"⟩,
       (⟨[], [], [("Tiny", ⟨"d", "sch", 1, ["a@example.com"]⟩)]⟩ : AppState)) :=
  ⟨signup_capacity_invariant.1
     [("Chess Club", "member@mergington.edu", ⟨"member@mergington.edu", "member"⟩),
      ("Math Club", "x@example.com", ⟨"admin@mergington.edu", "admin"⟩),
      ("Math Club", "x@example.com", ⟨"admin@mergington.edu", "admin"⟩)]
     (initial_state sample_hash) (by decide),
   signup_capacity_invariant.2 "Tiny" "other@example.com"
     ⟨"supervisor@mergington.edu", "supervisor"⟩
     (⟨[], [], [("Tiny", ⟨"d", "sch", 1, ["a@example.com"]⟩)]⟩ : AppState)
     ⟨"d", "sch", 1, ["a@example.com"]⟩ (by decide) (by decide) (by decide) (by decide)⟩

/-- C4, counterexample: for an email already in the participants list
("michael@mergington.edu" in "Chess Club"), signup fails (leaving the list
unchanged) but the following unregister removes the email, so the pair does
not return the participant list to its prior contents. -/
theorem signup_unregister_roundtrip_counterexample :
    isErr (signup_for_activity "Chess Club" "michael@mergington.edu"
      ⟨"admin@mergington.edu", "admin"⟩ (initial_state sample_hash)).1 = true ∧
    dict_get ((unregister_from_activity "Chess Club" "michael@mergington.edu"
        ⟨"admin@mergington.edu", "admin"⟩
        ((signup_for_activity "Chess Club" "michael@mergington.edu"
          ⟨"admin@mergington.edu", "admin"⟩ (initial_state sample_hash)).2)).2).activities
      "Chess Club" ≠
    dict_get (initial_state sample_hash).activities "Chess Club" := by
  exact ⟨by decide, by decide⟩

theorem signup_ok_dest (n e : String) (cu : CurrentUser) (s : AppState) (r : String)
    (s1 : AppState) (h : signup_for_activity n e cu s = (.ok r, s1)) :
    ∃ a, dict_get s.activities n = some a ∧
      ¬ (cu.role = "member" ∧ strLower e ≠ cu.email) ∧
      strLower e ∉ a.participants ∧
      a.participants.length < a.max_participants ∧
      s1 = ⟨s.users, s.active_sessions,
        dict_set s.activities n
          ⟨a.description, a.schedule, a.max_participants,
           a.participants ++ [strLower e]⟩⟩ := by
  rw [signup_eq] at h
  cases hga : dict_get s.activities n with
  | none =>
    rw [hga] at h
    exact absurd h (by simp)
  | some a =>
    rw [hga] at h
    simp only [] at h
    split at h
    · exact absurd h (by simp)
    · split at h
      · exact absurd h (by simp)
      · split at h
        · exact absurd h (by simp)
        · rename_i h1 h2 h3
          refine ⟨a, rfl, h1, h2, lt_of_not_le h3, ?_⟩
          have := congrArg Prod.snd h
          simpa using this.symm

/-- C4 (amended): when the signup for `(activity, email)` succeeds, the
following unregister for the same pair by the same actor succeeds and returns
that activity's participant list to exactly its prior contents and order. -/
theorem signup_unregister_roundtrip
    (n e : String) (cu : CurrentUser) (s : AppState) (r : String) (s1 : AppState)
    (h : signup_for_activity n e cu s = (.ok r, s1)) :
    isErr (unregister_from_activity n e cu s1).1 = false ∧
    dict_get ((unregister_from_activity n e cu s1).2).activities n =
      dict_get s.activities n := by
  obtain ⟨a, hga, hperm, hmem, hlt, hs1⟩ := signup_ok_dest n e cu s r s1 h
  have hsome : (dict_get s.activities n).isSome := by rw [hga]; rfl
  have hga1 : dict_get s1.activities n =
      some ⟨a.description, a.schedule, a.max_participants,
            a.participants ++ [strLower e]⟩ := by
    rw [hs1]
    exact dict_get_set_self _ hsome
  have hsome1 : (dict_get s1.activities n).isSome := by rw [hga1]; rfl
  have hmem2 : strLower e ∈ a.participants ++ [strLower e] := by simp
  have hrm : list_remove (strLower e) (a.participants ++ [strLower e]) = a.participants :=
    list_remove_append_self hmem
  rw [unregister_eq]
  simp only [hga1]
  rw [if_neg hperm, if_neg (not_not_intro hmem2)]
  constructor
  · rfl
  · simp only [hrm]
    rw [dict_get_set_self _ hsome1, hga]

/-- Witness for C4's amended theorem at a concrete input. -/
theorem signup_unregister_roundtrip_witness :
    isErr (unregister_from_activity "Chess Club" "NEW@mergington.edu"
      ⟨"admin@mergington.edu", "admin"⟩
      ((signup_for_activity "Chess Club" "NEW@mergington.edu"
        ⟨"admin@mergington.edu", "admin"⟩ (initial_state sample_hash)).2)).1 = false ∧
    dict_get ((unregister_from_activity "Chess Club" "NEW@mergington.edu"
        ⟨"admin@mergington.edu", "admin"⟩
        ((signup_for_activity "Chess Club" "NEW@mergington.edu"
          ⟨"admin@mergington.edu", "admin"⟩ (initial_state sample_hash)).2)).2).activities
      "Chess Club" =
    dict_get (initial_state sample_hash).activities "Chess Club" :=
  signup_unregister_roundtrip "Chess Club" "NEW@mergington.edu"
    ⟨"admin@mergington.edu", "admin"⟩ (initial_state sample_hash)
    "Signed up new@mergington.edu for Chess Club"
    ((signup_for_activity "Chess Club" "NEW@mergington.edu"
      ⟨"admin@mergington.edu", "admin"⟩ (initial_state sample_hash)).2)
    (by decide)

/-- C6: immediately after a successful register(email, password, "member"),
the credential check performed by login succeeds for the same
(email, password) and returns that user with role member. -/
theorem login_after_register
    (hash : String → String) (e p tok : String) (s s1 : AppState) (resp : RegisterResponse)
    (hreg : register_user hash e p "member" s = (.ok resp, s1)) :
    (login_user hash e p tok s1).1 =
      .ok ⟨"Login successful", tok, strLower e, "member"⟩ := by
  simp only [register_user] at hreg
  split at hreg
  · exact absurd hreg (by simp)
  · split at hreg
    · exact absurd hreg (by simp)
    · split at hreg
      · exact absurd hreg (by simp)
      · rename_i hfresh
        have hnone : dict_get s.users (strLower e) = none :=
          Option.not_isSome_iff_eq_none.mp hfresh
        have hs1 : dict_set s.users (strLower e) ⟨hash p, strLower "member"⟩ = s1.users := by
          have := congrArg Prod.snd hreg
          simp only at this
          rw [← this]
        have hget : dict_get s1.users (strLower e) = some ⟨hash p, strLower "member"⟩ := by
          rw [← hs1]
          unfold dict_set
          rw [if_neg hfresh]
          exact dict_get_append_last hnone
        simp only [login_user, hget]
        rw [if_neg (not_not_intro rfl)]
        have hm : strLower "member" = "member" := by decide
        rw [hm]

/-- Witness for C6 at a concrete input. -/
theorem login_after_register_witness :
    (login_user sample_hash "Bob@Example.com" "pw" "tok123"
      ((register_user sample_hash "Bob@Example.com" "pw" "member"
        (initial_state sample_hash)).2)).1 =
      .ok ⟨"Login successful", "tok123", "bob@example.com", "member"⟩ :=
  login_after_register sample_hash "Bob@Example.com" "pw" "tok123"
    (initial_state sample_hash)
    ((register_user sample_hash "Bob@Example.com" "pw" "member"
      (initial_state sample_hash)).2)
    ⟨"Registration successful", "bob@example.com", "member"⟩ (by decide)

/-- C7: authentication fails 401 independently of the session store unless the
credential string starts with the exact case-sensitive prefix "Bearer "; when
the prefix is present, the token resolved against the session store is the
remainder after the prefix with surrounding whitespace trimmed. -/
theorem bearer_token_extraction (s : AppState) :
    (∀ auth : Option String,
      (∀ a, auth = some a → strStartsWith a "Bearer " = false) →
      get_current_user auth s = .error ⟨401, "Missing or invalid authorization header"⟩) ∧
    (∀ a, strStartsWith a "Bearer " = true →
      get_current_user (some a) s =
        resolve_token (strTrim (strDrop a ("Bearer ".data.length))) s) := by
  constructor
  · intro auth h
    cases auth with
    | none => rfl
    | some a =>
      have ha := h a rfl
      simp only [get_current_user]
      rw [if_pos (Or.inr (by simp [ha]))]
  · intro a hpre
    simp only [get_current_user]
    rw [if_neg (by
      rintro (h' | h')
      · rw [h'] at hpre
        exact absurd hpre (by decide)
      · exact h' hpre)]
    unfold remove_bearer
    rw [if_pos hpre]

/-- Witness for C7 at concrete inputs: a non-Bearer header fails 401, a Bearer
header resolves the trimmed remainder. -/
theorem bearer_token_extraction_witness :
    get_current_user (some "bearer x") (initial_state sample_hash) =
      .error ⟨401, "Missing or invalid authorization header"⟩ ∧
    get_current_user (some "Bearer  tok ") (initial_state sample_hash) =
      resolve_token (strTrim (strDrop "Bearer  tok " ("Bearer ".data.length)))
        (initial_state sample_hash) :=
  ⟨(bearer_token_extraction (initial_state sample_hash)).1 (some "bearer x")
     (fun a ha => by cases ha; decide),
   (bearer_token_extraction (initial_state sample_hash)).2 "Bearer  tok " (by decide)⟩

theorem dict_get_eq_none_of_not_mem_keys {α : Type} {d : List (String × α)} {k : String}
    (h : k ∉ d.map Prod.fst) : dict_get d k = none := by
  induction d with
  | nil => rfl
  | cons p rest ih =>
    simp only [List.map_cons, List.mem_cons, not_or] at h
    cases p with
    | mk k2 v =>
      unfold dict_get
      rw [if_neg (fun hk => h.1 hk.symm)]
      exact ih h.2

theorem mem_keys_of_dict_get_some {α : Type} {d : List (String × α)} {k : String} {a : α}
    (h : dict_get d k = some a) : k ∈ d.map Prod.fst :=
  List.mem_map.mpr ⟨(k, a), dict_get_mem h, rfl⟩

theorem seed_keys_lower_inj :
    ∀ p ∈ seed_activities.map Prod.fst, ∀ q ∈ seed_activities.map Prod.fst,
      strLower p = strLower q → p = q := by decide

/-- C9: activity-name lookup is exact and case-sensitive: in any state whose
activity keys are the seeded ones, naming a stored activity with any different
letter casing fails 404 NotFound in both signup and unregister with the state
unchanged; by contrast, email comparison in the same operations is
case-insensitive (an uppercase variant of a seeded participant email is
accepted by unregister). -/
theorem activity_name_case_sensitive (req name : String) (a : Activity) (e : String)
    (cu : CurrentUser) (s : AppState)
    (hkeys : s.activities.map Prod.fst = seed_activities.map Prod.fst)
    (hname : dict_get seed_activities name = some a)
    (hdiff : req ≠ name)
    (hcase : strLower req = strLower name) :
    signup_for_activity req e cu s = (.error ⟨404, "Activity not found"⟩, s) ∧
    unregister_from_activity req e cu s = (.error ⟨404, "Activity not found"⟩, s) ∧
    isErr (unregister_from_activity "Chess Club" "MICHAEL@Mergington.EDU"
      ⟨"admin@mergington.edu", "admin"⟩ (initial_state sample_hash)).1 = false := by
  have hreqmem : req ∉ s.activities.map Prod.fst := by
    rw [hkeys]
    intro hin
    exact hdiff (seed_keys_lower_inj req hin name (mem_keys_of_dict_get_some hname) hcase)
  have hnone : dict_get s.activities req = none := dict_get_eq_none_of_not_mem_keys hreqmem
  refine ⟨?_, ?_, by decide⟩
  · rw [signup_eq]
    simp only [hnone]
  · rw [unregister_eq]
    simp only [hnone]

/-- Witness for C9 at a concrete input: "chess club" versus stored
"Chess Club". -/
theorem activity_name_case_sensitive_witness :
    signup_for_activity "chess club" "member@mergington.edu"
        ⟨"member@mergington.edu", "member"⟩ (initial_state sample_hash) =
      (.error ⟨404, "Activity not found"⟩, initial_state sample_hash) ∧
    unregister_from_activity "chess club" "member@mergington.edu"
        ⟨"member@mergington.edu", "member"⟩ (initial_state sample_hash) =
      (.error ⟨404, "Activity not found"⟩, initial_state sample_hash) ∧
    isErr (unregister_from_activity "Chess Club" "MICHAEL@Mergington.EDU"
      ⟨"admin@mergington.edu", "admin"⟩ (initial_state sample_hash)).1 = false :=
  activity_name_case_sensitive "chess club" "Chess Club"
    ⟨"Learn strategies and compete in chess tournaments", "Fridays, 3:30 PM - 5:00 PM", 12,
     ["michael@mergington.edu", "daniel@mergington.edu"]⟩
    "member@mergington.edu" ⟨"member@mergington.edu", "member"⟩
    (initial_state sample_hash) (by decide) (by decide) (by decide) (by decide)

/-- C10: registration lowercases the requested role before any validation: a
role lowercasing to "member" succeeds for a fresh email and stores role
"member"; a role lowercasing to "admin" or "supervisor" fails the
self-registration check (403); only a role whose lowercase form is outside
ROLES fails 400 "Invalid role". -/
theorem register_role_lowercased (hash : String → String) (e p r : String) (s : AppState) :
    (strLower r = "member" → dict_get s.users (strLower e) = none →
      register_user hash e p r s =
        (.ok ⟨"Registration successful", strLower e, "member"⟩,
         ⟨dict_set s.users (strLower e) ⟨hash p, "member"⟩,
          s.active_sessions, s.activities⟩)) ∧
    (strLower r = "admin" ∨ strLower r = "supervisor" →
      register_user hash e p r s =
        (.error ⟨403, "Self-registration only supports member role"⟩, s)) ∧
    (strLower r ∉ ROLES →
      register_user hash e p r s = (.error ⟨400, "Invalid role"⟩, s)) := by
  refine ⟨?_, ?_, ?_⟩
  · intro h1 h2
    simp only [register_user, h1]
    rw [if_neg (by decide : ¬ ("member" ∉ ROLES))]
    rw [if_neg (by decide : ¬ ("member" ≠ "member"))]
    rw [if_neg (by rw [h2]; simp)]
  · intro h
    rcases h with h | h
    · simp only [register_user, h]
      rw [if_neg (by decide : ¬ ("admin" ∉ ROLES))]
      rw [if_pos (by decide : "admin" ≠ "member")]
    · simp only [register_user, h]
      rw [if_neg (by decide : ¬ ("supervisor" ∉ ROLES))]
      rw [if_pos (by decide : "supervisor" ≠ "member")]
  · intro h
    simp only [register_user]
    rw [if_pos h]

/-- Witness for C10 at concrete inputs "MEMBER", "Admin" and "teacher". -/
theorem register_role_lowercased_witness :
    register_user sample_hash "x@example.com" "pw" "MEMBER" (initial_state sample_hash) =
      (.ok ⟨"Registration successful", "x@example.com", "member"⟩,
       ⟨dict_set (initial_state sample_hash).users "x@example.com"
          ⟨sample_hash "pw", "member"⟩,
        (initial_state sample_hash).active_sessions,
        (initial_state sample_hash).activities⟩) ∧
    register_user sample_hash "x@example.com" "pw" "Admin" (initial_state sample_hash) =
      (.error ⟨403, "Self-registration only supports member role"⟩,
       initial_state sample_hash) ∧
    register_user sample_hash "x@example.com" "pw" "teacher" (initial_state sample_hash) =
      (.error ⟨400, "Invalid role"⟩, initial_state sample_hash) :=
  ⟨(register_role_lowercased sample_hash "x@example.com" "pw" "MEMBER"
      (initial_state sample_hash)).1 (by decide) (by decide),
   (register_role_lowercased sample_hash "x@example.com" "pw" "Admin"
      (initial_state sample_hash)).2.1 (Or.inl (by decide)),
   (register_role_lowercased sample_hash "x@example.com" "pw" "teacher"
      (initial_state sample_hash)).2.2 (by decide)⟩

/-- C8: atomicity on error: whenever register, login, logout, signup or
unregister fails, the whole state (users, active sessions and every activity's
participants) is exactly as before the call; mutation happens only after every
check has passed. -/
theorem error_atomicity :
    (∀ hash e p r s, isErr (register_user hash e p r s).1 = true →
      (register_user hash e p r s).2 = s) ∧
    (∀ hash e p tok s, isErr (login_user hash e p tok s).1 = true →
      (login_user hash e p tok s).2 = s) ∧
    (∀ auth s, isErr (logout_route auth s).1 = true → (logout_route auth s).2 = s) ∧
    (∀ n e auth s, isErr (signup_route n e auth s).1 = true →
      (signup_route n e auth s).2 = s) ∧
    (∀ n e auth s, isErr (unregister_route n e auth s).1 = true →
      (unregister_route n e auth s).2 = s) := by
  refine ⟨?_, ?_, ?_, ?_, ?_⟩
  · intro hash e p r s
    simp only [register_user]
    split
    · intro _; rfl
    · split
      · intro _; rfl
      · split
        · intro _; rfl
        · intro h; simp [isErr] at h
  · intro hash e p tok s
    simp only [login_user]
    split
    · intro _; rfl
    · split
      · intro _; rfl
      · intro h; simp [isErr] at h
  · intro auth s
    simp only [logout_route]
    split
    · intro _; rfl
    · split
      · intro _; rfl
      · intro h; simp [isErr] at h
  · intro n e auth s
    simp only [signup_route]
    split
    · intro _; rfl
    · rw [signup_eq]
      split
      · intro _; rfl
      · split
        · intro _; rfl
        · split
          · intro _; rfl
          · split
            · intro _; rfl
            · intro h; simp [isErr] at h
  · intro n e auth s
    simp only [unregister_route]
    split
    · intro _; rfl
    · rw [unregister_eq]
      split
      · intro _; rfl
      · split
        · intro _; rfl
        · split
          · intro _; rfl
          · intro h; simp [isErr] at h

/-- Witness for C8: one concrete failing input per operation, each leaving the
seeded state unchanged. -/
theorem error_atomicity_witness :
    (register_user sample_hash "member@mergington.edu" "pw" "member"
      (initial_state sample_hash)).2 = initial_state sample_hash ∧
    (login_user sample_hash "member@mergington.edu" "wrong" "tok"
      (initial_state sample_hash)).2 = initial_state sample_hash ∧
    (logout_route (some "Bearer unknown") (initial_state sample_hash)).2 =
      initial_state sample_hash ∧
    (signup_route "Chess Club" "x@example.com" none (initial_state sample_hash)).2 =
      initial_state sample_hash ∧
    (unregister_route "Chess Club" "x@example.com" (some "nope")
      (initial_state sample_hash)).2 = initial_state sample_hash :=
  ⟨error_atomicity.1 sample_hash "member@mergington.edu" "pw" "member"
     (initial_state sample_hash) (by decide),
   error_atomicity.2.1 sample_hash "member@mergington.edu" "wrong" "tok"
     (initial_state sample_hash) (by decide),
   error_atomicity.2.2.1 (some "Bearer unknown") (initial_state sample_hash) (by decide),
   error_atomicity.2.2.2.1 "Chess Club" "x@example.com" none
     (initial_state sample_hash) (by decide),
   error_atomicity.2.2.2.2 "Chess Club" "x@example.com" (some "nope")
     (initial_state sample_hash) (by decide)⟩
